import Mathlib

/-!
Verification of `custom_components/frigidaire/climate.py`: the
`FrigidaireClimate` adapter between the frigidaire cloud API and the
Home Assistant climate entity model.

The embedding mirrors the Python source:
  * Python values that flow through the module (enum members, numbers,
    strings, `None`) are a single inductive `PyValue`, so that the
    dict-based translation tables have Python dict semantics
    (`d[k]` raises `KeyError` off-domain, `d.get(k)` returns `None`).
  * the `_details` snapshot dict is a structure whose fields are the
    detail keys the module reads, each holding a `PyValue`
    (`PyValue.pyNone` models an absent key, since `.get` is used).
  * command methods return the ordered list of actions passed to
    `self._client.execute_action`, paired with the exception raised
    mid-sequence, if any (`none` when the method returns normally).
  * `update` is a state transformer over (`_details`, `_attr_available`);
    the collaborator call `get_appliance_details` is passed in as an
    `Except` value, and the returned `Bool` records whether
    `_LOGGER.error` fired.
-/

/-- `frigidaire.Unit` enum (external collaborator vocabulary used by the
translation tables). -/
inductive FrigUnit where
  | FAHRENHEIT
  | CELSIUS
deriving DecidableEq, Repr

/-- `frigidaire.Mode` enum. -/
inductive FrigMode where
  | OFF
  | COOL
  | FAN
  | ECO
deriving DecidableEq, Repr

/-- `frigidaire.FanSpeed` enum. -/
inductive FrigFanSpeed where
  | AUTO
  | LOW
  | MEDIUM
  | HIGH
deriving DecidableEq, Repr

/-- `frigidaire.Power` enum. -/
inductive FrigPower where
  | ON
  | OFF
deriving DecidableEq, Repr

/-- A Python value as it flows through the module: an enum member, a
number, a string, or `None`.  `pyNone` doubles as the result of a
`dict.get` miss. -/
inductive PyValue where
  | unit (u : FrigUnit)
  | mode (m : FrigMode)
  | fan (f : FrigFanSpeed)
  | int (n : Int)
  | str (s : String)
  | pyNone
deriving DecidableEq, Repr

/-- Python truthiness restricted to the values of `PyValue`:
`None`, `0` and `""` are falsy, everything else truthy. -/
def pyTruthy : PyValue → Bool
  | .pyNone => false
  | .int n => n ≠ 0
  | .str s => s ≠ ""
  | _ => true

/-- The one exception kind raised by the module itself: a failed dict
index (`d[k]` with `k` absent). -/
inductive PyErr where
  | keyError
deriving DecidableEq, Repr

/-- `frigidaire.FrigidaireException`: the single transport/API error kind
raised by the collaborator. -/
inductive FrigErr where
  | frigidaireException
deriving DecidableEq, Repr

/-- A Python dict with `PyValue` keys and values, as an association list
in declaration order. -/
abbrev PyDict := List (PyValue × PyValue)

/-- `k in d` for a Python dict. -/
def dictContains (d : PyDict) (k : PyValue) : Bool :=
  d.any (fun p => p.1 = k)

/-- `d[k]`: raises `KeyError` when the key is absent. -/
def dictIndex (d : PyDict) (k : PyValue) : Except PyErr PyValue :=
  match d.find? (fun p => p.1 = k) with
  | some p => .ok p.2
  | none => .error .keyError

-- Home Assistant constants, with their real string values
-- (homeassistant.const / homeassistant.components.climate.const).

def TEMP_FAHRENHEIT : String := "°F"
def TEMP_CELSIUS : String := "°C"
def HVAC_MODE_OFF : String := "off"
def HVAC_MODE_COOL : String := "cool"
def HVAC_MODE_AUTO : String := "auto"
def HVAC_MODE_FAN_ONLY : String := "fan_only"
def FAN_AUTO : String := "auto"
def FAN_LOW : String := "low"
def FAN_MEDIUM : String := "medium"
def FAN_HIGH : String := "high"
def FAN_OFF : String := "off"

-- The five module-level translation dicts, in source order
-- (climate.py lines 56-87).

def FRIGIDAIRE_TO_HA_UNIT : PyDict :=
  [(.unit .FAHRENHEIT, .str TEMP_FAHRENHEIT),
   (.unit .CELSIUS, .str TEMP_CELSIUS)]

def FRIGIDAIRE_TO_HA_MODE : PyDict :=
  [(.mode .OFF, .str HVAC_MODE_OFF),
   (.mode .COOL, .str HVAC_MODE_COOL),
   (.mode .FAN, .str HVAC_MODE_FAN_ONLY),
   (.mode .ECO, .str HVAC_MODE_AUTO)]

def FRIGIDAIRE_TO_HA_FAN_SPEED : PyDict :=
  [(.fan .AUTO, .str FAN_AUTO),
   (.fan .LOW, .str FAN_LOW),
   (.fan .MEDIUM, .str FAN_MEDIUM),
   (.fan .HIGH, .str FAN_HIGH)]

def HA_TO_FRIGIDAIRE_FAN_MODE : PyDict :=
  [(.str FAN_AUTO, .fan .AUTO),
   (.str FAN_LOW, .fan .LOW),
   (.str FAN_MEDIUM, .fan .MEDIUM),
   (.str FAN_HIGH, .fan .HIGH)]

def HA_TO_FRIGIDAIRE_HVAC_MODE : PyDict :=
  [(.str HVAC_MODE_AUTO, .mode .ECO),
   (.str HVAC_MODE_FAN_ONLY, .mode .FAN),
   (.str HVAC_MODE_COOL, .mode .COOL),
   (.str HVAC_MODE_OFF, .mode .OFF)]

/-- The `_details` snapshot dict, one field per detail key the module
reads (`frigidaire.Detail.*` plus the literal key `"connectivityState"`).
`PyValue.pyNone` models an absent key. -/
structure Details where
  temperatureRepresentation : PyValue := .pyNone
  targetTemperatureF : PyValue := .pyNone
  targetTemperatureC : PyValue := .pyNone
  ambientTemperatureF : PyValue := .pyNone
  ambientTemperatureC : PyValue := .pyNone
  mode : PyValue := .pyNone
  fanSpeed : PyValue := .pyNone
  filterState : PyValue := .pyNone
  connectivityState : PyValue := .pyNone
deriving DecidableEq, Repr

namespace FrigidaireClimate

/-- `temperature_unit` property: `FRIGIDAIRE_TO_HA_UNIT[self._details.get(
frigidaire.Detail.TEMPERATURE_REPRESENTATION)]`. -/
def temperature_unit (d : Details) : Except PyErr PyValue :=
  dictIndex FRIGIDAIRE_TO_HA_UNIT d.temperatureRepresentation

/-- `target_temperature` property: the F field when the unit is
Fahrenheit, else the C field. -/
def target_temperature (d : Details) : Except PyErr PyValue := do
  let u ← temperature_unit d
  if u = .str TEMP_FAHRENHEIT then
    pure d.targetTemperatureF
  else
    pure d.targetTemperatureC

/-- `hvac_mode` property: the snapshot mode through
`FRIGIDAIRE_TO_HA_MODE`. -/
def hvac_mode (d : Details) : Except PyErr PyValue :=
  dictIndex FRIGIDAIRE_TO_HA_MODE d.mode

/-- `current_temperature` property: the ambient F field when the unit is
Fahrenheit, else the ambient C field. -/
def current_temperature (d : Details) : Except PyErr PyValue := do
  let u ← temperature_unit d
  if u = .str TEMP_FAHRENHEIT then
    pure d.ambientTemperatureF
  else
    pure d.ambientTemperatureC

/-- `fan_mode` property: `FAN_OFF` for a falsy fan speed, else the fan
speed through `FRIGIDAIRE_TO_HA_FAN_SPEED`. -/
def fan_mode (d : Details) : Except PyErr PyValue :=
  let fan_speed := d.fanSpeed
  if ¬ pyTruthy fan_speed then
    .ok (.str FAN_OFF)
  else
    dictIndex FRIGIDAIRE_TO_HA_FAN_SPEED fan_speed

/-- `min_temp` property. -/
def min_temp (d : Details) : Except PyErr Int := do
  let u ← temperature_unit d
  if u = .str TEMP_FAHRENHEIT then
    pure 60
  else
    pure 16

/-- `max_temp` property. -/
def max_temp (d : Details) : Except PyErr Int := do
  let u ← temperature_unit d
  if u = .str TEMP_FAHRENHEIT then
    pure 90
  else
    pure 32

/-- `extra_state_attributes` property: the `check_filter` boolean. -/
def check_filter (d : Details) : Bool :=
  d.filterState = .str "CHANGE"

end FrigidaireClimate

/-- One call to `self._client.execute_action`: the `frigidaire.Action`
constructor applied, with the argument the source passes it. -/
inductive FrigAction where
  | set_temperature_f (t : Int)
  | set_temperature_c (t : Int)
  | set_temperature (t : PyValue)
  | set_fan_speed (f : PyValue)
  | set_mode (m : PyValue)
  | set_power (p : FrigPower)
deriving DecidableEq, Repr

/-- What a command method did: the ordered `execute_action` calls it
issued, and the exception it raised mid-sequence (or `none` when it
returned normally). -/
abbrev CmdTrace := List FrigAction × Option PyErr

/-- Python `int()` on a rational: truncation toward zero. -/
def pyInt (q : ℚ) : Int :=
  if 0 ≤ q then ⌊q⌋ else ⌈q⌉

namespace FrigidaireClimate

/-- `set_temperature(**kwargs)`: `kwargs.get(ATTR_TEMPERATURE)` is the
`Option ℚ` argument (`none` when no temperature was supplied). -/
def set_temperature (d : Details) (temperature : Option ℚ) : CmdTrace :=
  match temperature with
  | none => ([], none)
  | some t =>
    let ti := pyInt t
    match temperature_unit d with
    | .error e => ([], some e)
    | .ok u =>
      if u = .str TEMP_FAHRENHEIT then
        ([.set_temperature_f ti], none)
      else
        ([.set_temperature_c ti], none)

/-- `set_fan_mode(fan_mode)`. -/
def set_fan_mode (fan_mode : String) : CmdTrace :=
  if ¬ dictContains HA_TO_FRIGIDAIRE_FAN_MODE (.str fan_mode) then
    ([], none)
  else
    match dictIndex HA_TO_FRIGIDAIRE_FAN_MODE (.str fan_mode) with
    | .error e => ([], some e)
    | .ok v => ([.set_fan_speed v], none)

/-- `set_hvac_mode(hvac_mode)`.  When the device is off, the
`target_temperature` property is read (and can raise `KeyError`) after
the power-on action has already been executed; the trace records the
actions issued before any raise. -/
def set_hvac_mode (d : Details) (hvac_mode : String) : CmdTrace :=
  if hvac_mode = HVAC_MODE_OFF then
    ([.set_power .OFF], none)
  else if ¬ dictContains HA_TO_FRIGIDAIRE_HVAC_MODE (.str hvac_mode) then
    ([], none)
  else if d.mode = .mode .OFF then
    match target_temperature d with
    | .error e => ([.set_power .ON], some e)
    | .ok tt =>
      match dictIndex HA_TO_FRIGIDAIRE_HVAC_MODE (.str hvac_mode) with
      | .error e => ([.set_power .ON, .set_temperature tt], some e)
      | .ok m =>
        ([.set_power .ON, .set_temperature tt, .set_mode m], none)
  else
    match dictIndex HA_TO_FRIGIDAIRE_HVAC_MODE (.str hvac_mode) with
    | .error e => ([], some e)
    | .ok m => ([.set_mode m], none)

/-- The adapter state the `update` method touches: `self._details` and
`self._attr_available` (the `available` property of the Home Assistant
`Entity` base class returns `_attr_available`, which defaults to
`True`). -/
structure ClimateState where
  details : Option Details
  available : Bool
deriving DecidableEq, Repr

/-- `update()` as a state transformer.  The collaborator call
`self._client.get_appliance_details(self._appliance)` is passed in as
its `Except` outcome; the returned `Bool` is whether `_LOGGER.error`
fired. -/
def update (st : ClimateState) (fetch : Except FrigErr Details) :
    ClimateState × Bool :=
  match fetch with
  | .error _ =>
    ({ st with available := false }, st.available)
  | .ok details =>
    ({ details := some details,
       available := details.connectivityState = .str "connected" },
     false)

end FrigidaireClimate

open FrigidaireClimate

instance {e a : Type} [DecidableEq e] [DecidableEq a] :
    DecidableEq (Except e a) := fun x y =>
  match x, y with
  | .error u, .error v =>
    if h : u = v then .isTrue (by rw [h])
    else .isFalse (fun hh => h (by injection hh))
  | .ok u, .ok v =>
    if h : u = v then .isTrue (by rw [h])
    else .isFalse (fun hh => h (by injection hh))
  | .error _, .ok _ => .isFalse (fun hh => Except.noConfusion hh)
  | .ok _, .error _ => .isFalse (fun hh => Except.noConfusion hh)

/-- Characterization of `set_hvac_mode` on a recognized non-off mode
token: three actions when the snapshot says the device is off, one
action otherwise. -/
theorem set_hvac_mode_recognized (d : Details) (m : String) (fm tt : PyValue)
    (h1 : m ≠ HVAC_MODE_OFF)
    (hc : dictContains HA_TO_FRIGIDAIRE_HVAC_MODE (.str m) = true)
    (h2 : dictIndex HA_TO_FRIGIDAIRE_HVAC_MODE (.str m) = .ok fm)
    (htt : target_temperature d = .ok tt) :
    (d.mode = .mode .OFF →
      set_hvac_mode d m =
        ([.set_power .ON, .set_temperature tt, .set_mode fm], none)) ∧
    (d.mode ≠ .mode .OFF →
      set_hvac_mode d m = ([.set_mode fm], none)) := by
  unfold set_hvac_mode
  rw [if_neg h1, if_neg (by simp [hc])]
  constructor
  · intro hmode
    rw [if_pos hmode, htt, h2]
  · intro hmode
    rw [if_neg hmode, h2]

/-- C1: for every recognized non-off hvac mode (`cool`, `auto`,
`fan_only`), `set_hvac_mode` issues exactly three remote calls in strict
order when the snapshot mode is off — `set_power(ON)`, then
`set_temperature` with the target temperature read from the
still-in-memory snapshot, then `set_mode` with the translated mode — and
exactly one remote call (`set_mode` with the translated mode) when the
snapshot mode is not off. -/
theorem C1_set_hvac_mode_sequencing (d : Details) (m : String)
    (hm : m = HVAC_MODE_COOL ∨ m = HVAC_MODE_AUTO ∨ m = HVAC_MODE_FAN_ONLY)
    (tt : PyValue) (htt : target_temperature d = .ok tt) :
    ∃ fm : PyValue,
      dictIndex HA_TO_FRIGIDAIRE_HVAC_MODE (.str m) = .ok fm ∧
      (d.mode = .mode .OFF →
        set_hvac_mode d m =
          ([.set_power .ON, .set_temperature tt, .set_mode fm], none)) ∧
      (d.mode ≠ .mode .OFF →
        set_hvac_mode d m = ([.set_mode fm], none)) := by
  rcases hm with hm | hm | hm <;> subst hm
  · exact ⟨.mode .COOL, by decide,
      set_hvac_mode_recognized d _ _ tt (by decide) (by decide) (by decide) htt⟩
  · exact ⟨.mode .ECO, by decide,
      set_hvac_mode_recognized d _ _ tt (by decide) (by decide) (by decide) htt⟩
  · exact ⟨.mode .FAN, by decide,
      set_hvac_mode_recognized d _ _ tt (by decide) (by decide) (by decide) htt⟩

/-- A concrete snapshot of a powered-off device: Fahrenheit unit,
stored target temperature 75°F. -/
def offDetails : Details :=
  { mode := .mode .OFF,
    temperatureRepresentation := .unit .FAHRENHEIT,
    targetTemperatureF := .int 75 }

/-- C1 witness: the concrete off snapshot commanded to `cool`. -/
theorem C1_set_hvac_mode_sequencing_witness :
    ∃ fm : PyValue,
      dictIndex HA_TO_FRIGIDAIRE_HVAC_MODE (.str "cool") = .ok fm ∧
      (offDetails.mode = .mode .OFF →
        set_hvac_mode offDetails "cool" =
          ([.set_power .ON, .set_temperature (.int 75), .set_mode fm],
           none)) ∧
      (offDetails.mode ≠ .mode .OFF →
        set_hvac_mode offDetails "cool" = ([.set_mode fm], none)) :=
  C1_set_hvac_mode_sequencing offDetails "cool" (Or.inl rfl)
    (.int 75) (by decide)

/-- C2: for every prior snapshot, `set_hvac_mode` on the platform off
token issues exactly one remote call, `set_power(OFF)`, and never a
`set_mode` call. -/
theorem C2_set_hvac_mode_off (d : Details) :
    set_hvac_mode d HVAC_MODE_OFF = ([.set_power .OFF], none) ∧
    ∀ v : PyValue,
      FrigAction.set_mode v ∉ (set_hvac_mode d HVAC_MODE_OFF).1 := by
  constructor
  · rw [set_hvac_mode, if_pos rfl]
  · intro v
    rw [set_hvac_mode, if_pos rfl]
    simp

/-- C3: a failed poll always sets `available` to false, and the error is
logged exactly once per transition into unavailable: starting available,
two consecutive failing polls log on the first and not on the second,
and set `available = false` both times. -/
theorem C3_update_failure_logs_once (st : ClimateState) (e1 e2 : FrigErr)
    (h : st.available = true) :
    (∀ s : ClimateState, ∀ e : FrigErr,
      (update s (.error e)).1.available = false) ∧
    (update st (.error e1)).2 = true ∧
    (update (update st (.error e1)).1 (.error e2)).2 = false ∧
    (update st (.error e1)).1.available = false ∧
    (update (update st (.error e1)).1 (.error e2)).1.available = false := by
  refine ⟨fun s e => rfl, ?_, rfl, rfl, rfl⟩
  simpa [update] using h

/-- C3 witness: a fresh adapter state (no snapshot, available) hit by
two consecutive transport failures. -/
theorem C3_update_failure_logs_once_witness :
    (∀ s : ClimateState, ∀ e : FrigErr,
      (update s (.error e)).1.available = false) ∧
    (update ⟨none, true⟩ (.error .frigidaireException)).2 = true ∧
    (update (update ⟨none, true⟩ (.error .frigidaireException)).1
      (.error .frigidaireException)).2 = false ∧
    (update ⟨none, true⟩ (.error .frigidaireException)).1.available = false ∧
    (update (update ⟨none, true⟩ (.error .frigidaireException)).1
      (.error .frigidaireException)).1.available = false :=
  C3_update_failure_logs_once ⟨none, true⟩ .frigidaireException
    .frigidaireException rfl

/-- C4: a successful poll sets `available` to true exactly when the
fetched snapshot's `connectivityState` equals the literal string
`"connected"`; any other value, including an absent field, yields
`available = false`. -/
theorem C4_update_success_availability (st : ClimateState) (d : Details) :
    ((update st (.ok d)).1.available = true ↔
      d.connectivityState = .str "connected") ∧
    (d.connectivityState = .pyNone →
      (update st (.ok d)).1.available = false) := by
  constructor
  · simp [update]
  · intro h
    simp [update, h]

/-- C4 witness: a snapshot reporting `"connected"` yields available,
and a snapshot with the field absent yields unavailable. -/
theorem C4_update_success_availability_witness :
    ((update ⟨none, true⟩
        (.ok { connectivityState := .str "connected" })).1.available = true ↔
      ({ connectivityState := .str "connected" } : Details).connectivityState =
        .str "connected") ∧
    (update ⟨none, true⟩ (.ok ({} : Details))).1.available = false :=
  ⟨(C4_update_success_availability ⟨none, true⟩
      { connectivityState := .str "connected" }).1,
   (C4_update_success_availability ⟨none, true⟩ {}).2 rfl⟩

/-- C5: `set_fan_mode` on a token outside the platform-to-remote fan
table issues zero remote calls and raises nothing; on a token in the
table it issues exactly one `set_fan_speed` call carrying the translated
value. -/
theorem C5_set_fan_mode (tok : String) :
    (¬ dictContains HA_TO_FRIGIDAIRE_FAN_MODE (.str tok) = true →
      set_fan_mode tok = ([], none)) ∧
    (dictContains HA_TO_FRIGIDAIRE_FAN_MODE (.str tok) = true →
      ∃ v : PyValue,
        dictIndex HA_TO_FRIGIDAIRE_FAN_MODE (.str tok) = .ok v ∧
        set_fan_mode tok = ([.set_fan_speed v], none)) := by
  constructor
  · intro h
    rw [set_fan_mode, if_pos (by simpa using h)]
  · intro h
    have h2 := h
    rw [dictContains, List.any_eq_true] at h2
    obtain ⟨p, hp, hk⟩ := h2
    simp only [decide_eq_true_eq] at hk
    have hfind : ∃ q, HA_TO_FRIGIDAIRE_FAN_MODE.find?
        (fun p => p.1 = .str tok) = some q := by
      have : (HA_TO_FRIGIDAIRE_FAN_MODE.find?
          (fun p => p.1 = .str tok)).isSome = true := by
        apply List.find?_isSome.mpr
        exact ⟨p, hp, by simpa using hk⟩
      exact Option.isSome_iff_exists.mp this
    obtain ⟨q, hq⟩ := hfind
    refine ⟨q.2, ?_, ?_⟩
    · rw [dictIndex, hq]
    · rw [set_fan_mode, if_neg (not_not_intro h), dictIndex, hq]

/-- C5 witness: the unrecognized token `"turbo"` issues nothing; the
recognized token `"low"` issues one translated call. -/
theorem C5_set_fan_mode_witness :
    set_fan_mode "turbo" = ([], none) ∧
    ∃ v : PyValue,
      dictIndex HA_TO_FRIGIDAIRE_FAN_MODE (.str "low") = .ok v ∧
      set_fan_mode "low" = ([.set_fan_speed v], none) :=
  ⟨(C5_set_fan_mode "turbo").1 (by decide),
   (C5_set_fan_mode "low").2 (by decide)⟩

/-- C6: `set_temperature` with no value supplied silently returns with
zero remote calls; with a numeric value it truncates to integer degrees
and issues exactly one remote call, choosing the Fahrenheit- or
Celsius-specific action according to the snapshot's temperature unit. -/
theorem C6_set_temperature (d : Details) (t : ℚ) :
    set_temperature d none = ([], none) ∧
    (d.temperatureRepresentation = .unit .FAHRENHEIT →
      set_temperature d (some t) = ([.set_temperature_f (pyInt t)], none)) ∧
    (d.temperatureRepresentation = .unit .CELSIUS →
      set_temperature d (some t) = ([.set_temperature_c (pyInt t)], none)) := by
  refine ⟨rfl, ?_, ?_⟩
  · intro h
    have hu : temperature_unit d = .ok (.str TEMP_FAHRENHEIT) := by
      rw [temperature_unit, h]; decide
    rw [set_temperature, hu]
    rfl
  · intro h
    have hu : temperature_unit d = .ok (.str TEMP_CELSIUS) := by
      rw [temperature_unit, h]; decide
    rw [set_temperature, hu]
    rfl

/-- C6 witness: no value supplied is a no-op; 72.6 in a Fahrenheit
snapshot truncates to 72 and goes out as `set_temperature_f`; 21.5 in a
Celsius snapshot truncates to 21 and goes out as `set_temperature_c`. -/
theorem C6_set_temperature_witness :
    set_temperature { temperatureRepresentation := .unit .FAHRENHEIT }
      none = ([], none) ∧
    set_temperature { temperatureRepresentation := .unit .FAHRENHEIT }
      (some (363 / 5)) = ([.set_temperature_f 72], none) ∧
    set_temperature { temperatureRepresentation := .unit .CELSIUS }
      (some (43 / 2)) = ([.set_temperature_c 21], none) := by
  have hF := C6_set_temperature
    { temperatureRepresentation := .unit .FAHRENHEIT } (363 / 5)
  have hC := C6_set_temperature
    { temperatureRepresentation := .unit .CELSIUS } (43 / 2)
  refine ⟨hF.1, ?_, ?_⟩
  · have := hF.2.1 rfl
    rw [this]
    norm_num [pyInt]
  · have := hC.2.2 rfl
    rw [this]
    norm_num [pyInt]

/-- C7: composing the forward (remote-to-platform) mode and fan-speed
tables with their reverse (platform-to-remote) tables is the identity on
the forward domains — in particular remote `ECO` maps to platform
`auto` and back to `ECO` — and a reverse lookup on a key outside the
reverse table does not raise: the guarded command methods no-op. -/
theorem C7_table_round_trip :
    (∀ p ∈ FRIGIDAIRE_TO_HA_MODE,
      dictIndex HA_TO_FRIGIDAIRE_HVAC_MODE p.2 = .ok p.1) ∧
    (∀ p ∈ FRIGIDAIRE_TO_HA_FAN_SPEED,
      dictIndex HA_TO_FRIGIDAIRE_FAN_MODE p.2 = .ok p.1) ∧
    (∀ tok : String,
      ¬ dictContains HA_TO_FRIGIDAIRE_FAN_MODE (.str tok) = true →
      set_fan_mode tok = ([], none)) ∧
    (∀ d : Details, ∀ tok : String, tok ≠ HVAC_MODE_OFF →
      ¬ dictContains HA_TO_FRIGIDAIRE_HVAC_MODE (.str tok) = true →
      set_hvac_mode d tok = ([], none)) := by
  refine ⟨by decide, by decide, ?_, ?_⟩
  · intro tok h
    rw [set_fan_mode, if_pos h]
  · intro d tok h1 h2
    rw [set_hvac_mode, if_neg h1, if_pos h2]

/-- C7 witness: remote `ECO` round-trips through platform `auto`; the
out-of-table tokens `"dry"` no-op both guarded commands. -/
theorem C7_table_round_trip_witness :
    dictIndex HA_TO_FRIGIDAIRE_HVAC_MODE (.str HVAC_MODE_AUTO) =
      .ok (.mode .ECO) ∧
    dictIndex HA_TO_FRIGIDAIRE_FAN_MODE (.str FAN_MEDIUM) =
      .ok (.fan .MEDIUM) ∧
    set_fan_mode "dry" = ([], none) ∧
    set_hvac_mode {} "dry" = ([], none) :=
  ⟨C7_table_round_trip.1 (.mode .ECO, .str HVAC_MODE_AUTO) (by decide),
   C7_table_round_trip.2.1 (.fan .MEDIUM, .str FAN_MEDIUM) (by decide),
   C7_table_round_trip.2.2.1 "dry" (by decide),
   C7_table_round_trip.2.2.2 {} "dry" (by decide) (by decide)⟩

/-- C8: `target_temperature` and `current_temperature` each select the
Fahrenheit field of the snapshot when the same snapshot's unit field is
Fahrenheit and the Celsius field when it is Celsius. -/
theorem C8_temperature_accessors_follow_unit (d : Details) :
    (d.temperatureRepresentation = .unit .FAHRENHEIT →
      target_temperature d = .ok d.targetTemperatureF ∧
      current_temperature d = .ok d.ambientTemperatureF) ∧
    (d.temperatureRepresentation = .unit .CELSIUS →
      target_temperature d = .ok d.targetTemperatureC ∧
      current_temperature d = .ok d.ambientTemperatureC) := by
  constructor
  · intro h
    have hu : temperature_unit d = .ok (.str TEMP_FAHRENHEIT) := by
      rw [temperature_unit, h]; decide
    constructor
    · rw [target_temperature, hu]; rfl
    · rw [current_temperature, hu]; rfl
  · intro h
    have hu : temperature_unit d = .ok (.str TEMP_CELSIUS) := by
      rw [temperature_unit, h]; decide
    constructor
    · rw [target_temperature, hu]; rfl
    · rw [current_temperature, hu]; rfl

/-- A snapshot with distinct values in the four temperature fields,
used to probe which field each accessor reads. -/
def probeDetails : Details :=
  { targetTemperatureF := .int 70,
    targetTemperatureC := .int 21,
    ambientTemperatureF := .int 68,
    ambientTemperatureC := .int 20 }

/-- C8 witness: two snapshots that differ only in the unit field read
different underlying fields. -/
theorem C8_temperature_accessors_follow_unit_witness :
    (target_temperature
        { probeDetails with temperatureRepresentation := .unit .FAHRENHEIT } =
      .ok (.int 70) ∧
     current_temperature
        { probeDetails with temperatureRepresentation := .unit .FAHRENHEIT } =
      .ok (.int 68)) ∧
    (target_temperature
        { probeDetails with temperatureRepresentation := .unit .CELSIUS } =
      .ok (.int 21) ∧
     current_temperature
        { probeDetails with temperatureRepresentation := .unit .CELSIUS } =
      .ok (.int 20)) :=
  ⟨(C8_temperature_accessors_follow_unit
      { probeDetails with temperatureRepresentation := .unit .FAHRENHEIT }).1
      rfl,
   (C8_temperature_accessors_follow_unit
      { probeDetails with temperatureRepresentation := .unit .CELSIUS }).2
      rfl⟩

/-- C9: a failed poll leaves the stored snapshot unchanged, so every
function of the snapshot — in particular every read accessor — returns
after the failed poll exactly what it returned after the last
successful poll. -/
theorem C9_failed_poll_preserves_snapshot (st : ClimateState) (e : FrigErr) :
    (update st (.error e)).1.details = st.details ∧
    ∀ (α : Type) (f : Option Details → α),
      f (update st (.error e)).1.details = f st.details :=
  ⟨rfl, fun _ _ => rfl⟩

/-- An absent key makes `dictIndex` raise `KeyError`. -/
theorem dictIndex_of_not_contains {d : PyDict} {k : PyValue}
    (h : dictContains d k = false) : dictIndex d k = .error .keyError := by
  rw [dictIndex]
  cases hf : d.find? (fun p => p.1 = k) with
  | none => rfl
  | some p =>
    exfalso
    have hmem : p ∈ d := List.mem_of_find?_eq_some hf
    have hpk := List.find?_some hf
    have : dictContains d k = true :=
      List.any_eq_true.mpr ⟨p, hmem, hpk⟩
    rw [this] at h
    cases h

/-- A present key makes `dictIndex` return a value. -/
theorem dictIndex_of_contains {d : PyDict} {k : PyValue}
    (h : dictContains d k = true) : ∃ v, dictIndex d k = .ok v := by
  rw [dictContains, List.any_eq_true] at h
  obtain ⟨p, hp, hk⟩ := h
  have hs : (d.find? (fun p => p.1 = k)).isSome = true :=
    List.find?_isSome.mpr ⟨p, hp, hk⟩
  obtain ⟨q, hq⟩ := Option.isSome_iff_exists.mp hs
  exact ⟨q.2, by rw [dictIndex, hq]⟩

/-- C10: `temperature_unit`, `hvac_mode` and `fan_mode` translate by
direct table indexing, so a snapshot whose unit, mode, or truthy
fan-speed value is outside the corresponding table makes the accessor
raise `KeyError`; the accessors are total exactly under the
precondition that those fields are in the tables' domains. -/
theorem C10_accessors_raise_off_table (d : Details) :
    (dictContains FRIGIDAIRE_TO_HA_UNIT d.temperatureRepresentation = false →
      temperature_unit d = .error .keyError) ∧
    (dictContains FRIGIDAIRE_TO_HA_UNIT d.temperatureRepresentation = true →
      ∃ u, temperature_unit d = .ok u) ∧
    (dictContains FRIGIDAIRE_TO_HA_MODE d.mode = false →
      hvac_mode d = .error .keyError) ∧
    (dictContains FRIGIDAIRE_TO_HA_MODE d.mode = true →
      ∃ m, hvac_mode d = .ok m) ∧
    (pyTruthy d.fanSpeed = true →
      dictContains FRIGIDAIRE_TO_HA_FAN_SPEED d.fanSpeed = false →
      fan_mode d = .error .keyError) ∧
    (pyTruthy d.fanSpeed = true →
      dictContains FRIGIDAIRE_TO_HA_FAN_SPEED d.fanSpeed = true →
      ∃ f, fan_mode d = .ok f) := by
  refine ⟨?_, ?_, ?_, ?_, ?_, ?_⟩
  · intro h
    rw [temperature_unit]
    exact dictIndex_of_not_contains h
  · intro h
    rw [temperature_unit]
    exact dictIndex_of_contains h
  · intro h
    rw [hvac_mode]
    exact dictIndex_of_not_contains h
  · intro h
    rw [hvac_mode]
    exact dictIndex_of_contains h
  · intro ht h
    rw [fan_mode]
    rw [if_neg (by simp [ht])]
    exact dictIndex_of_not_contains h
  · intro ht h
    rw [fan_mode]
    rw [if_neg (by simp [ht])]
    exact dictIndex_of_contains h

/-- A snapshot whose unit, mode and fan-speed fields all hold values
outside their translation tables (yet truthy). -/
def bogusDetails : Details :=
  { temperatureRepresentation := .str "KELVIN",
    mode := .str "HEAT",
    fanSpeed := .str "TURBO" }

/-- A snapshot whose unit, mode and fan-speed fields are all in their
tables' domains. -/
def validDetails : Details :=
  { temperatureRepresentation := .unit .CELSIUS,
    mode := .mode .COOL,
    fanSpeed := .fan .HIGH }

/-- C10 witness: the out-of-table snapshot makes all three accessors
raise `KeyError`; the in-table snapshot makes all three succeed. -/
theorem C10_accessors_raise_off_table_witness :
    (temperature_unit bogusDetails = .error .keyError ∧
     hvac_mode bogusDetails = .error .keyError ∧
     fan_mode bogusDetails = .error .keyError) ∧
    ((∃ u, temperature_unit validDetails = .ok u) ∧
     (∃ m, hvac_mode validDetails = .ok m) ∧
     (∃ f, fan_mode validDetails = .ok f)) :=
  ⟨⟨(C10_accessors_raise_off_table bogusDetails).1 (by decide),
    (C10_accessors_raise_off_table bogusDetails).2.2.1 (by decide),
    (C10_accessors_raise_off_table bogusDetails).2.2.2.2.1 (by decide)
      (by decide)⟩,
   ⟨(C10_accessors_raise_off_table validDetails).2.1 (by decide),
    (C10_accessors_raise_off_table validDetails).2.2.2.1 (by decide),
    (C10_accessors_raise_off_table validDetails).2.2.2.2.2 (by decide)
      (by decide)⟩⟩
